import Mathlib

/-!
Shallow embedding of `app.py`: a Flask service that featurizes a JSON
artist profile, predicts a cluster with a pre-trained pipeline, and maps
the cluster to a fixed recommendation list.

Conventions of the embedding:
* JSON values are the inductive `Json` (numbers as `Int`; the claims never
  depend on float arithmetic).
* A Python dict is an insertion-ordered association list; assignment to an
  existing key updates the value in place (`dictInsert`).
* The pandas one-element list wrapper around each cell (`[value]`) is
  elided: a Feature Row cell holds the value itself.
* The trained pipeline is opaque: a function from the assembled Feature
  Row to a `PredictResult` (a cluster id, a raised `KeyError`, or any
  other raised exception).
* A Python exception that escapes the handler (it is raised outside the
  `try` block) is the result `HandlerResult.crash`; exceptions raised
  inside the `try` are translated to HTTP responses by the handler.
-/

inductive Json where
  | null : Json
  | bool (b : Bool) : Json
  | num (n : Int) : Json
  | str (s : String) : Json
  | arr (elems : List Json) : Json
  | obj (entries : List (String × Json)) : Json

/-- Lookup in a JSON object / Python dict (entries have unique keys). -/
def jsonObjGet (entries : List (String × Json)) (k : String) : Option Json :=
  match entries.find? (fun kv => kv.1 == k) with
  | some kv => some kv.2
  | none => none

/-- Python `d.get(k, default)`. -/
def dictGet (entries : List (String × Json)) (k : String) (dflt : Json) : Json :=
  (jsonObjGet entries k).getD dflt

/-- Python `d[k] = v` on an insertion-ordered dict: update in place when the
key exists, append otherwise. -/
def dictInsert (entries : List (String × Json)) (k : String) (v : Json) :
    List (String × Json) :=
  match entries with
  | [] => [(k, v)]
  | (k0, v0) :: rest =>
    if k0 == k then (k0, v) :: rest else (k0, v0) :: dictInsert rest k v

/-- Successive dict assignments, in order. -/
def insertAll (entries : List (String × Json)) (new : List (String × Json)) :
    List (String × Json) :=
  new.foldl (fun acc kv => dictInsert acc kv.1 kv.2) entries

/-- The characters stripped by Python `str.strip()`: the code points with
CPython's `str.isspace()` property — ASCII whitespace and separators
(U+0009-U+000D, U+001C-U+001F, U+0020), NEL (U+0085), NBSP (U+00A0),
Ogham space (U+1680), the U+2000-U+200A spaces, line/paragraph separators
(U+2028, U+2029), U+202F, U+205F and the ideographic space U+3000. -/
def pyIsSpace (c : Char) : Bool :=
  c = ' ' || c = '\t' || c = '\n' || c = '\r' || c = '\x0b' || c = '\x0c' ||
  c = '\x1c' || c = '\x1d' || c = '\x1e' || c = '\x1f' || c = '\x85' || c = '\xa0' ||
  c = '\u1680' || ('\u2000' ≤ c && c ≤ '\u200a') || c = '\u2028' || c = '\u2029' ||
  c = '\u202f' || c = '\u205f' || c = '\u3000'

/-- Python `str.strip()` on a character list. -/
def stripCore (cs : List Char) : List Char :=
  (((cs.dropWhile pyIsSpace).reverse).dropWhile pyIsSpace).reverse

/-- Python `str.strip()`. -/
def pyStrip (s : String) : String :=
  String.mk (stripCore s.data)

/-- Python `str.split(",")` on a character list: split at every comma,
keeping empty segments. -/
def splitCommaCore : List Char → List (List Char)
  | [] => [[]]
  | c :: cs =>
    if c = ',' then [] :: splitCommaCore cs
    else
      match splitCommaCore cs with
      | [] => [[c]]
      | seg :: rest => (c :: seg) :: rest

/-- Line 102 of `app.py`:
`[d.strip() for d in input_difficulties.split(",") if d.strip()]`. -/
def parseCommaListCore (cs : List Char) : List (List Char) :=
  ((splitCommaCore cs).map stripCore).filter (fun d => d ≠ [])

/-- String-level version of `parseCommaListCore`. -/
def parseCommaList (s : String) : List String :=
  (parseCommaListCore s.data).map String.mk

/-- Python `str.replace` for a non-empty pattern, scanning left to right
and replacing non-overlapping occurrences. The fuel argument (instantiated
with the string length, an upper bound on the scan steps) makes the
recursion structural. -/
def replaceFuel (pat rep : List Char) : Nat → List Char → List Char
  | 0, cs => cs
  | _ + 1, [] => []
  | n + 1, c :: cs =>
    if pat.isPrefixOf (c :: cs) then
      rep ++ replaceFuel pat rep n (cs.drop (pat.length - 1))
    else
      c :: replaceFuel pat rep n cs

/-- Python `s.replace(pat, rep)` (for the non-empty patterns used by the
sanitizer). -/
def pyReplace (s pat rep : String) : String :=
  String.mk (replaceFuel pat.data rep.data s.data.length s.data)

/-- Line 106 of `app.py`: the sanitized binary column name for a difficulty
tag, chained Python `str.replace` calls (each replaces all occurrences,
left to right). -/
def clean_difficulty_name (difficulty : String) : String :=
  "Dificuldade_" ++
    pyReplace (pyReplace (pyReplace (pyReplace (pyReplace (pyReplace (pyReplace
      (pyReplace difficulty " " "_") "/" "_") "-" "_") "(" "") ")" "") ":" "")
      "." "") "__" "_"

/-- Line 101-102 of `app.py`: a string value for the difficulties field is
split on commas (trimmed, empty segments dropped); every other value is
left as is. -/
def normalizeDifficulties : Json → Json
  | .str s => .arr ((parseCommaList s).map Json.str)
  | v => v

/-- Python `s in v` for a string `s`: membership among the elements of a
list, among the keys of a dict, substring test on a string; a `TypeError`
(`.error`) on any non-container value. -/
def pyContainsStr (v : Json) (s : String) : Except Unit Bool :=
  match v with
  | .arr elems => .ok (elems.any (fun j => match j with | .str t => t == s | _ => false))
  | .obj entries => .ok (entries.any (fun kv => kv.1 == s))
  | .str t => .ok (if s.isEmpty then true else (t.splitOn s).length > 1)
  | _ => .error ()

/-- Outcome of `pipeline.predict(input_df)[0]`: a cluster id, or a raised
exception (`KeyError` with the offending key, or any other exception with
its message). -/
inductive PredictResult where
  | ok (cluster : Int) : PredictResult
  | keyError (key : String) : PredictResult
  | err (msg : String) : PredictResult

/-- The opaque trained pipeline: Feature Row to prediction outcome. -/
def Pipeline : Type := List (String × Json) → PredictResult

/-- Module-level state of `app.py` after the load block (lines 12-35). -/
structure AppState where
  pipeline : Option Pipeline
  politicas_base : Json
  all_difficulties : List String
  categorical_cols_for_ohe : List String

/-- The sentinel for an absent categorical field (line 97). -/
def naoInformado : String := "Não informado"

/-- The loop of lines 104-107: one binary entry per canonical difficulty
tag, in vocabulary order, each named by `clean_difficulty_name`; the first
membership test that raises `TypeError` aborts the loop (`.error`). -/
def difficultyFlagsFrom (input_difficulties : Json) :
    List String → Except Unit (List (String × Json))
  | [] => .ok []
  | difficulty :: rest =>
    match pyContainsStr input_difficulties difficulty with
    | .error e => .error e
    | .ok b =>
      match difficultyFlagsFrom input_difficulties rest with
      | .error e => .error e
      | .ok flags =>
        .ok ((clean_difficulty_name difficulty, Json.num (if b then 1 else 0)) :: flags)

/-- The flag columns (lines 100-107): the raw difficulties value is
normalized (string-splitting case), then the loop runs over the
vocabulary. -/
def difficultyFlags (all_difficulties : List String) (rawVal : Json) :
    Except Unit (List (String × Json)) :=
  difficultyFlagsFrom (normalizeDifficulties rawVal) all_difficulties

/-- Lines 95-110 of `app.py`: assemble the Feature Row (`input_data`) from
the request object. The categorical entries are written first, then the
binary difficulty flags, into one insertion-ordered dict. -/
def buildInputData (st : AppState) (data : List (String × Json)) :
    Except Unit (List (String × Json)) :=
  let catRow := st.categorical_cols_for_ohe.map
    (fun col => (col, dictGet data col (Json.str naoInformado)))
  match difficultyFlags st.all_difficulties
    (dictGet data "Dificuldades_Divulgacao_Digital" (Json.arr [])) with
  | .error e => .error e
  | .ok flagRow => .ok (insertAll (insertAll [] catRow) flagRow)

/-- Result of one request: an HTTP response, or an exception escaping the
handler (an unhandled crash turned into a framework-level error page). -/
inductive HandlerResult where
  | resp (status : Nat) (body : Json) : HandlerResult
  | crash : HandlerResult

/-- Line 86. -/
def serviceUnavailableMsg : String :=
  "Serviço indisponível: Modelo não carregado. Contacte o administrador."

/-- Line 92. -/
def invalidRequestMsg : String :=
  "Requisição inválida: Dados JSON esperados."

/-- Line 117, the fallback recommendation list for an unmapped cluster. -/
def fallback_recommendations : List String :=
  ["Nenhuma política sugerida para este perfil no momento."]

/-- Line 124: `str(KeyError(k))` quotes the key. -/
def keyErrorMsg (k : String) : String :=
  "Erro de chave: Verifique se todos os campos esperados estão no JSON de entrada. Detalhe: \x27" ++ k ++ "\x27"

/-- Line 128. -/
def internalErrorMsg (m : String) : String :=
  "Erro interno no servidor ao processar a requisição. Detalhe: " ++ m

/-- Lines 40-69 of `app.py`: the hardcoded cluster-to-policies dict. -/
def politicas_sugeridas_por_cluster : List (Int × List String) :=
  [ (0,
    [ "Criar editais específicos para grupos vulneráveis (PCD, baixa renda, sem formação).",
      "Garantir bolsas de apoio financeiro para participação em oficinas e cursos.",
      "Criar programas de capacitação inicial em arte e cultura voltados à inclusão social.",
      "Oferecer apoio logístico (transporte, alimentação) para participação em atividades culturais.",
      "Incentivar projetos de arte comunitária em bairros periféricos." ]),
    (1,
    [ "Fortalecer canais de divulgação e formação técnica para artistas em início de carreira.",
      "Disponibilizar mentorias com artistas experientes e gestores culturais.",
      "Incentivar parcerias entre artistas emergentes e instituições culturais locais.",
      "Criar feiras, mostras e festivais voltados a talentos em ascensão.",
      "Oferecer cursos de capacitação em gestão de carreira e produção cultural." ]),
    (2,
    [ "Ampliar incentivos à profissionalização e registro formal de artistas.",
      "Criar linhas de microcrédito específicas para artistas formalizados.",
      "Oferecer capacitação em gestão de carreira, marketing e direitos autorais.",
      "Promover programas de certificação de competências artísticas.",
      "Incentivar a participação em cooperativas e associações de classe." ]),
    (3,
    [ "Estimular redes de cooperação entre artistas e produtores culturais.",
      "Promover intercâmbios culturais regionais, nacionais e internacionais.",
      "Fomentar o uso de tecnologias digitais para ampliar o alcance do trabalho artístico.",
      "Criar programas de residência artística em diferentes linguagens.",
      "Apoiar iniciativas de economia criativa e inovação cultural." ]) ]

/-- Python `politicas_sugeridas_por_cluster.get(c, fallback)`. -/
def clusterLookup (c : Int) : List String :=
  match politicas_sugeridas_por_cluster.find? (fun kv => kv.1 == c) with
  | some kv => kv.2
  | none => fallback_recommendations

/-- A JSON error body. -/
def errorBody (msg : String) : Json :=
  Json.obj [("error", Json.str msg)]

/-- Lines 82-128 of `app.py`: the `POST /recommend` handler. The request
body is `none` when Flask yields no parsed JSON (`request.json` is `None`),
otherwise the parsed value. -/
def recommend (st : AppState) (body : Option Json) : HandlerResult :=
  match st.pipeline with
  | none => .resp 503 (errorBody serviceUnavailableMsg)
  | some pipeline =>
    match body with
    | some (Json.obj data) =>
      if data.isEmpty then .resp 400 (errorBody invalidRequestMsg)
      else
        match buildInputData st data with
        | .error _ => .crash
        | .ok input_df =>
          match pipeline input_df with
          | .ok predicted_cluster =>
            .resp 200 (Json.obj
              [ ("cluster", Json.num predicted_cluster),
                ("recommendations", Json.arr ((clusterLookup predicted_cluster).map Json.str)) ])
          | .keyError k => .resp 400 (errorBody (keyErrorMsg k))
          | .err m => .resp 500 (errorBody (internalErrorMsg m))
    | _ => .resp 400 (errorBody invalidRequestMsg)

/-- Outcome of the module-level load block (lines 12-35): all four
artifacts loaded, or a `FileNotFoundError`, or any other exception. -/
inductive LoadResult where
  | success (pipeline : Pipeline) (politicas : Json)
      (all_difficulties : List String) (categorical_cols : List String) : LoadResult
  | fileNotFound : LoadResult
  | otherError : LoadResult

/-- Lines 12-35 of `app.py`: the state the module starts serving with. -/
def loadState : LoadResult → AppState
  | .success p pb ad cc => ⟨some p, pb, ad, cc⟩
  | .fileNotFound => ⟨none, Json.obj [], [], []⟩
  | .otherError => ⟨none, Json.obj [], [], []⟩

/-- The handler as a state transformer: it reads the module-level state and
never writes it (no `global` assignment occurs in `recommend`). -/
def handleRequest (st : AppState) (body : Option Json) : HandlerResult × AppState :=
  (recommend st body, st)

/-! ## Helper lemmas about the handler's branches -/

theorem recommend_pipeline_none (st : AppState) (body : Option Json)
    (h : st.pipeline = none) :
    recommend st body = .resp 503 (errorBody serviceUnavailableMsg) := by
  unfold recommend
  rw [h]

theorem recommend_ok (st : AppState) (p : Pipeline)
    (data input_df : List (String × Json)) (c : Int)
    (hp : st.pipeline = some p)
    (hdata : data ≠ [])
    (hrow : buildInputData st data = .ok input_df)
    (hpred : p input_df = .ok c) :
    recommend st (some (Json.obj data)) =
      .resp 200 (Json.obj
        [ ("cluster", Json.num c),
          ("recommendations", Json.arr ((clusterLookup c).map Json.str)) ]) := by
  cases data with
  | nil => exact absurd rfl hdata
  | cons hd tl =>
    unfold recommend
    rw [hp]
    show (match buildInputData st (hd :: tl) with
      | .error _ => HandlerResult.crash
      | .ok input_df =>
        match p input_df with
        | .ok predicted_cluster =>
          .resp 200 (Json.obj
            [ ("cluster", Json.num predicted_cluster),
              ("recommendations", Json.arr ((clusterLookup predicted_cluster).map Json.str)) ])
        | .keyError k => .resp 400 (errorBody (keyErrorMsg k))
        | .err m => .resp 500 (errorBody (internalErrorMsg m))) = _
    rw [hrow]
    show (match p input_df with
      | .ok predicted_cluster =>
        HandlerResult.resp 200 (Json.obj
          [ ("cluster", Json.num predicted_cluster),
            ("recommendations", Json.arr ((clusterLookup predicted_cluster).map Json.str)) ])
      | .keyError k => .resp 400 (errorBody (keyErrorMsg k))
      | .err m => .resp 500 (errorBody (internalErrorMsg m))) = _
    rw [hpred]

theorem recommend_crash_of_row_error (st : AppState) (p : Pipeline)
    (data : List (String × Json))
    (hp : st.pipeline = some p)
    (hdata : data ≠ [])
    (hrow : buildInputData st data = .error ()) :
    recommend st (some (Json.obj data)) = .crash := by
  cases data with
  | nil => exact absurd rfl hdata
  | cons hd tl =>
    unfold recommend
    rw [hp]
    show (match buildInputData st (hd :: tl) with
      | .error _ => HandlerResult.crash
      | .ok input_df =>
        match p input_df with
        | .ok predicted_cluster =>
          HandlerResult.resp 200 (Json.obj
            [ ("cluster", Json.num predicted_cluster),
              ("recommendations", Json.arr ((clusterLookup predicted_cluster).map Json.str)) ])
        | .keyError k => .resp 400 (errorBody (keyErrorMsg k))
        | .err m => .resp 500 (errorBody (internalErrorMsg m))) = _
    rw [hrow]

theorem recommend_keyError (st : AppState) (p : Pipeline)
    (data input_df : List (String × Json)) (k : String)
    (hp : st.pipeline = some p)
    (hdata : data ≠ [])
    (hrow : buildInputData st data = .ok input_df)
    (hpred : p input_df = .keyError k) :
    recommend st (some (Json.obj data)) = .resp 400 (errorBody (keyErrorMsg k)) := by
  cases data with
  | nil => exact absurd rfl hdata
  | cons hd tl =>
    unfold recommend
    rw [hp]
    show (match buildInputData st (hd :: tl) with
      | .error _ => HandlerResult.crash
      | .ok input_df =>
        match p input_df with
        | .ok predicted_cluster =>
          HandlerResult.resp 200 (Json.obj
            [ ("cluster", Json.num predicted_cluster),
              ("recommendations", Json.arr ((clusterLookup predicted_cluster).map Json.str)) ])
        | .keyError k => .resp 400 (errorBody (keyErrorMsg k))
        | .err m => .resp 500 (errorBody (internalErrorMsg m))) = _
    rw [hrow]
    show (match p input_df with
      | .ok predicted_cluster =>
        HandlerResult.resp 200 (Json.obj
          [ ("cluster", Json.num predicted_cluster),
            ("recommendations", Json.arr ((clusterLookup predicted_cluster).map Json.str)) ])
      | .keyError k => .resp 400 (errorBody (keyErrorMsg k))
      | .err m => .resp 500 (errorBody (internalErrorMsg m))) = _
    rw [hpred]

theorem recommend_err (st : AppState) (p : Pipeline)
    (data input_df : List (String × Json)) (m : String)
    (hp : st.pipeline = some p)
    (hdata : data ≠ [])
    (hrow : buildInputData st data = .ok input_df)
    (hpred : p input_df = .err m) :
    recommend st (some (Json.obj data)) = .resp 500 (errorBody (internalErrorMsg m)) := by
  cases data with
  | nil => exact absurd rfl hdata
  | cons hd tl =>
    unfold recommend
    rw [hp]
    show (match buildInputData st (hd :: tl) with
      | .error _ => HandlerResult.crash
      | .ok input_df =>
        match p input_df with
        | .ok predicted_cluster =>
          HandlerResult.resp 200 (Json.obj
            [ ("cluster", Json.num predicted_cluster),
              ("recommendations", Json.arr ((clusterLookup predicted_cluster).map Json.str)) ])
        | .keyError k => .resp 400 (errorBody (keyErrorMsg k))
        | .err m => .resp 500 (errorBody (internalErrorMsg m))) = _
    rw [hrow]
    show (match p input_df with
      | .ok predicted_cluster =>
        HandlerResult.resp 200 (Json.obj
          [ ("cluster", Json.num predicted_cluster),
            ("recommendations", Json.arr ((clusterLookup predicted_cluster).map Json.str)) ])
      | .keyError k => .resp 400 (errorBody (keyErrorMsg k))
      | .err m => .resp 500 (errorBody (internalErrorMsg m))) = _
    rw [hpred]

theorem clusterLookup_eq_fallback (c : Int)
    (h0 : c ≠ 0) (h1 : c ≠ 1) (h2 : c ≠ 2) (h3 : c ≠ 3) :
    clusterLookup c = fallback_recommendations := by
  have hnone : politicas_sugeridas_por_cluster.find? (fun kv => kv.1 == c) = none := by
    rw [List.find?_eq_none]
    intro x hx
    simp only [politicas_sugeridas_por_cluster, List.mem_cons,
      List.not_mem_nil, or_false] at hx
    rcases hx with h | h | h | h <;> subst h <;> simp only [beq_iff_eq] <;> omega
  unfold clusterLookup
  rw [hnone]

theorem clusterLookup_ne_nil (c : Int) : clusterLookup c ≠ [] := by
  intro hempty
  unfold clusterLookup at hempty
  rcases hfind : politicas_sugeridas_por_cluster.find? (fun kv => kv.1 == c) with _ | kv
  · rw [hfind] at hempty
    simp [fallback_recommendations] at hempty
  · rw [hfind] at hempty
    have hmem := List.mem_of_find?_eq_some hfind
    simp only [politicas_sugeridas_por_cluster, List.mem_cons,
      List.not_mem_nil, or_false] at hmem
    rcases hmem with h | h | h | h <;> subst h <;> simp at hempty

/-! ## Concrete fixtures used by witnesses and counterexamples -/

/-- A pipeline that always predicts the given cluster. -/
def constPipeline (c : Int) : Pipeline := fun _ => PredictResult.ok c

/-- A loaded state with one categorical column and no difficulty tags. -/
def demoState (p : Pipeline) : AppState :=
  ⟨some p, Json.obj [], [], ["Escolaridade"]⟩

/-- A loaded state with one categorical column and one difficulty tag. -/
def demoStateDiff (p : Pipeline) : AppState :=
  ⟨some p, Json.obj [], ["Falta de tempo"], ["Escolaridade"]⟩

/-! ## Claims -/

/-- C10: when the model is absent, every request gets 503 — even one whose
body is missing, empty, or not a JSON object, because the availability
check precedes body validation. -/
theorem C10_absent_model_503_before_validation (st : AppState) (body : Option Json)
    (h : st.pipeline = none) :
    recommend st body = .resp 503 (errorBody serviceUnavailableMsg) :=
  recommend_pipeline_none st body h

/-- Witness for C10 at a body that is not even a JSON object. -/
theorem C10_witness :
    (loadState LoadResult.fileNotFound).pipeline = none ∧
    recommend (loadState LoadResult.fileNotFound) (some (Json.num 3)) =
      .resp 503 (errorBody serviceUnavailableMsg) :=
  ⟨rfl, C10_absent_model_503_before_validation (loadState LoadResult.fileNotFound)
    (some (Json.num 3)) rfl⟩

/-- C6: with the model loaded, a missing body, a non-object body, or the
empty object each yield 400 with a JSON error body. -/
theorem C6_invalid_body_400 (st : AppState) (p : Pipeline) (body : Option Json)
    (hp : st.pipeline = some p)
    (hbody : body = none ∨ body = some (Json.obj []) ∨
      ∃ j, body = some j ∧ ∀ entries, j ≠ Json.obj entries) :
    recommend st body = .resp 400 (errorBody invalidRequestMsg) := by
  unfold recommend
  rw [hp]
  rcases hbody with h | h | ⟨j, hj, hno⟩
  · rw [h]
  · rw [h]
    rfl
  · rw [hj]
    cases j with
    | obj entries => exact absurd rfl (hno entries)
    | null => rfl
    | bool b => rfl
    | num n => rfl
    | str s => rfl
    | arr elems => rfl

/-- Witness for C6 at the empty JSON object. -/
theorem C6_witness :
    recommend (demoState (constPipeline 0)) (some (Json.obj [])) =
      .resp 400 (errorBody invalidRequestMsg) :=
  C6_invalid_body_400 (demoState (constPipeline 0)) (constPipeline 0)
    (some (Json.obj [])) rfl (Or.inr (Or.inl rfl))

/-- C7: when the startup load fails (missing file or any other error), the
model state is `none`, the three support collections are empty, and every
request — in particular every valid body — is answered 503 (the handler is
total: the process keeps serving instead of crashing). -/
theorem C7_load_failure_degrades_to_503 (r : LoadResult)
    (h : r = LoadResult.fileNotFound ∨ r = LoadResult.otherError) :
    (loadState r).pipeline = none ∧
    (loadState r).politicas_base = Json.obj [] ∧
    (loadState r).all_difficulties = [] ∧
    (loadState r).categorical_cols_for_ohe = [] ∧
    ∀ body : Option Json,
      recommend (loadState r) body = .resp 503 (errorBody serviceUnavailableMsg) := by
  rcases h with h | h <;> subst h <;>
    exact ⟨rfl, rfl, rfl, rfl,
      fun body => recommend_pipeline_none _ body rfl⟩

/-- Witness for C7: a failed load answers a well-formed body with 503. -/
theorem C7_witness :
    recommend (loadState LoadResult.fileNotFound)
      (some (Json.obj [("Escolaridade", Json.str "Superior")])) =
      .resp 503 (errorBody serviceUnavailableMsg) :=
  (C7_load_failure_degrades_to_503 LoadResult.fileNotFound (Or.inl rfl)).2.2.2.2
    (some (Json.obj [("Escolaridade", Json.str "Superior")]))

/-- C9: handling the same body twice against the same loaded state yields
the same result, and the handler never writes the process-wide state. -/
theorem C9_idempotent_readonly (st : AppState) (body : Option Json) :
    (handleRequest st body).2 = st ∧
    (handleRequest ((handleRequest st body).2) body).2 = st ∧
    (handleRequest st body).1 = (handleRequest ((handleRequest st body).2) body).1 :=
  ⟨rfl, rfl, rfl⟩

/-- C4: a predicted cluster outside the table's keys yields 200 with
exactly the single-element fallback list, and the lookup never returns an
empty recommendation list for any cluster id. -/
theorem C4_unknown_cluster_fallback (st : AppState) (p : Pipeline)
    (data input_df : List (String × Json)) (c : Int)
    (hp : st.pipeline = some p)
    (hdata : data ≠ [])
    (hrow : buildInputData st data = .ok input_df)
    (hpred : p input_df = .ok c)
    (hc : c ≠ 0 ∧ c ≠ 1 ∧ c ≠ 2 ∧ c ≠ 3) :
    recommend st (some (Json.obj data)) =
      .resp 200 (Json.obj
        [ ("cluster", Json.num c),
          ("recommendations",
            Json.arr [Json.str "Nenhuma política sugerida para este perfil no momento."]) ]) ∧
    ∀ c2 : Int, clusterLookup c2 ≠ [] := by
  obtain ⟨h0, h1, h2, h3⟩ := hc
  constructor
  · rw [recommend_ok st p data input_df c hp hdata hrow hpred,
      clusterLookup_eq_fallback c h0 h1 h2 h3]
    rfl
  · exact clusterLookup_ne_nil

/-- Witness for C4 at cluster id 7. -/
theorem C4_witness :
    recommend (demoState (constPipeline 7))
      (some (Json.obj [("Escolaridade", Json.str "Superior")])) =
      .resp 200 (Json.obj
        [ ("cluster", Json.num 7),
          ("recommendations",
            Json.arr [Json.str "Nenhuma política sugerida para este perfil no momento."]) ]) ∧
    ∀ c2 : Int, clusterLookup c2 ≠ [] :=
  C4_unknown_cluster_fallback (demoState (constPipeline 7)) (constPipeline 7)
    [("Escolaridade", Json.str "Superior")] [("Escolaridade", Json.str "Superior")] 7
    rfl (List.cons_ne_nil _ _) rfl rfl (by decide)

/-- C8: when predict returns cluster 0 the response is 200 with the integer
cluster 0 and exactly the 5 policy strings configured for cluster 0, in
their configured order. -/
theorem C8_cluster_zero_response (st : AppState) (p : Pipeline)
    (data input_df : List (String × Json))
    (hp : st.pipeline = some p)
    (hdata : data ≠ [])
    (hrow : buildInputData st data = .ok input_df)
    (hpred : p input_df = .ok 0) :
    recommend st (some (Json.obj data)) =
      .resp 200 (Json.obj
        [ ("cluster", Json.num 0),
          ("recommendations", Json.arr
            [ Json.str "Criar editais específicos para grupos vulneráveis (PCD, baixa renda, sem formação).",
              Json.str "Garantir bolsas de apoio financeiro para participação em oficinas e cursos.",
              Json.str "Criar programas de capacitação inicial em arte e cultura voltados à inclusão social.",
              Json.str "Oferecer apoio logístico (transporte, alimentação) para participação em atividades culturais.",
              Json.str "Incentivar projetos de arte comunitária em bairros periféricos." ]) ]) ∧
    (clusterLookup 0).length = 5 := by
  constructor
  · rw [recommend_ok st p data input_df 0 hp hdata hrow hpred]
    rfl
  · rfl

/-- Witness for C8. -/
theorem C8_witness :
    recommend (demoState (constPipeline 0))
      (some (Json.obj [("Escolaridade", Json.str "Superior")])) =
      .resp 200 (Json.obj
        [ ("cluster", Json.num 0),
          ("recommendations", Json.arr
            [ Json.str "Criar editais específicos para grupos vulneráveis (PCD, baixa renda, sem formação).",
              Json.str "Garantir bolsas de apoio financeiro para participação em oficinas e cursos.",
              Json.str "Criar programas de capacitação inicial em arte e cultura voltados à inclusão social.",
              Json.str "Oferecer apoio logístico (transporte, alimentação) para participação em atividades culturais.",
              Json.str "Incentivar projetos de arte comunitária em bairros periféricos." ]) ]) ∧
    (clusterLookup 0).length = 5 :=
  C8_cluster_zero_response (demoState (constPipeline 0)) (constPipeline 0)
    [("Escolaridade", Json.str "Superior")] [("Escolaridade", Json.str "Superior")]
    rfl (List.cons_ne_nil _ _) rfl rfl

/-! ## Dict lookup after insertion -/

theorem jsonObjGet_cons (k0 : String) (v0 : Json) (t : List (String × Json)) (k : String) :
    jsonObjGet ((k0, v0) :: t) k = if k0 == k then some v0 else jsonObjGet t k := by
  by_cases h : k0 == k <;> simp [jsonObjGet, List.find?, h]

theorem jsonObjGet_dictInsert_self (entries : List (String × Json)) (k : String) (v : Json) :
    jsonObjGet (dictInsert entries k v) k = some v := by
  induction entries with
  | nil => simp [dictInsert, jsonObjGet, List.find?]
  | cons hd t ih =>
    obtain ⟨k0, v0⟩ := hd
    by_cases h : k0 == k
    · simp [dictInsert, h, jsonObjGet_cons]
    · simp [dictInsert, h, jsonObjGet_cons, ih]

theorem jsonObjGet_dictInsert_ne (entries : List (String × Json)) (k : String) (v : Json)
    (k2 : String) (h : k ≠ k2) :
    jsonObjGet (dictInsert entries k v) k2 = jsonObjGet entries k2 := by
  induction entries with
  | nil =>
    simp only [dictInsert, jsonObjGet_cons]
    rw [if_neg (by simpa using h)]
  | cons hd t ih =>
    obtain ⟨k0, v0⟩ := hd
    by_cases hk : k0 == k
    · have hk2 : (k0 == k2) = false := by
        have : k0 = k := by simpa using hk
        subst this
        simpa using h
      simp [dictInsert, hk, jsonObjGet_cons, hk2]
    · simp [dictInsert, hk, jsonObjGet_cons, ih]

theorem insertAll_cons (entries : List (String × Json)) (hd : String × Json)
    (t : List (String × Json)) :
    insertAll entries (hd :: t) = insertAll (dictInsert entries hd.1 hd.2) t := rfl

theorem insertAll_get_preserve (new : List (String × Json)) :
    ∀ (entries : List (String × Json)) (col : String) (v : Json),
      jsonObjGet entries col = some v →
      (∀ kv ∈ new, kv.1 = col → kv.2 = v) →
      jsonObjGet (insertAll entries new) col = some v := by
  induction new with
  | nil => intro entries col v hget _; simpa [insertAll] using hget
  | cons hd t ih =>
    intro entries col v hget hsame
    rw [insertAll_cons]
    apply ih
    · by_cases h : hd.1 = col
      · have hv : hd.2 = v := hsame hd (List.mem_cons_self hd t) h
        rw [← h, hv]
        exact jsonObjGet_dictInsert_self entries hd.1 v
      · rw [jsonObjGet_dictInsert_ne entries hd.1 hd.2 col h]
        exact hget
    · intro kv hkv
      exact hsame kv (List.mem_cons_of_mem hd hkv)

theorem insertAll_get_mem (new : List (String × Json)) :
    ∀ (entries : List (String × Json)) (col : String) (v : Json),
      (col, v) ∈ new →
      (∀ kv ∈ new, kv.1 = col → kv.2 = v) →
      jsonObjGet (insertAll entries new) col = some v := by
  induction new with
  | nil => intro entries col v hmem; exact absurd hmem (List.not_mem_nil _)
  | cons hd t ih =>
    intro entries col v hmem hsame
    rw [insertAll_cons]
    rcases List.mem_cons.mp hmem with heq | hmem2
    · subst heq
      apply insertAll_get_preserve
      · exact jsonObjGet_dictInsert_self entries col v
      · intro kv hkv
        exact hsame kv (List.mem_cons_of_mem _ hkv)
    · exact ih _ col v hmem2 (fun kv hkv => hsame kv (List.mem_cons_of_mem hd hkv))

theorem insertAll_get_no_key (new : List (String × Json)) :
    ∀ (entries : List (String × Json)) (col : String),
      (∀ kv ∈ new, kv.1 ≠ col) →
      jsonObjGet (insertAll entries new) col = jsonObjGet entries col := by
  induction new with
  | nil => intro entries col _; rfl
  | cons hd t ih =>
    intro entries col hkeys
    rw [insertAll_cons,
      ih _ col (fun kv hkv => hkeys kv (List.mem_cons_of_mem hd hkv)),
      jsonObjGet_dictInsert_ne entries hd.1 hd.2 col
        (hkeys hd (List.mem_cons_self hd t))]

/-! ## Iterability of the difficulties value -/

/-- The JSON values on which the Python membership test `s in v` does not
raise `TypeError`: sequences, mappings and strings. -/
def diffValueIterable : Json → Bool
  | .str _ => true
  | .arr _ => true
  | .obj _ => true
  | _ => false

theorem pyContainsStr_ok_of_iterable (v : Json) (h : diffValueIterable v = true)
    (s : String) : ∃ b, pyContainsStr v s = .ok b := by
  cases v <;> simp [diffValueIterable] at h <;> exact ⟨_, rfl⟩

theorem normalize_iterable (v : Json) (h : diffValueIterable v = true) :
    diffValueIterable (normalizeDifficulties v) = true := by
  cases v <;> simp_all [diffValueIterable, normalizeDifficulties]

theorem pyContainsStr_normalize_error (v : Json) (h : diffValueIterable v = false)
    (s : String) : pyContainsStr (normalizeDifficulties v) s = .error () := by
  cases v <;> simp [diffValueIterable] at h <;> rfl

theorem difficultyFlagsFrom_ok (nv : Json) (hnv : diffValueIterable nv = true) :
    ∀ alld : List String, ∃ flags,
      difficultyFlagsFrom nv alld = .ok flags ∧
      ∀ kv ∈ flags, ∃ d ∈ alld, kv.1 = clean_difficulty_name d := by
  intro alld
  induction alld with
  | nil => exact ⟨[], rfl, by intro kv h; exact absurd h (List.not_mem_nil _)⟩
  | cons d rest ih =>
    obtain ⟨flags, hflags, hkeys⟩ := ih
    obtain ⟨b, hb⟩ := pyContainsStr_ok_of_iterable nv hnv d
    refine ⟨(clean_difficulty_name d, Json.num (if b then 1 else 0)) :: flags, ?_, ?_⟩
    · simp [difficultyFlagsFrom, hb, hflags]
    · intro kv hkv
      rcases List.mem_cons.mp hkv with heq | hmem
      · exact ⟨d, List.mem_cons_self d rest, by rw [heq]⟩
      · obtain ⟨d2, hd2, hname⟩ := hkeys kv hmem
        exact ⟨d2, List.mem_cons_of_mem d hd2, hname⟩

theorem difficultyFlagsFrom_error (nv : Json) (d : String) (rest : List String)
    (h : pyContainsStr nv d = .error ()) :
    difficultyFlagsFrom nv (d :: rest) = .error () := by
  simp [difficultyFlagsFrom, h]

/-- When the difficulties value is iterable, the Feature Row is assembled
without an exception, and a categorical column untouched by any sanitized
flag name holds `data.get(col, "Não informado")`. -/
theorem buildInputData_ok (st : AppState) (data : List (String × Json))
    (hiter : diffValueIterable
      (dictGet data "Dificuldades_Divulgacao_Digital" (Json.arr [])) = true) :
    ∃ row, buildInputData st data = .ok row ∧
      ∀ col ∈ st.categorical_cols_for_ohe,
        (∀ d ∈ st.all_difficulties, clean_difficulty_name d ≠ col) →
        jsonObjGet row col = some (dictGet data col (Json.str naoInformado)) := by
  have hnv := normalize_iterable _ hiter
  obtain ⟨flags, hflags, hkeys⟩ := difficultyFlagsFrom_ok _ hnv st.all_difficulties
  set catRow := st.categorical_cols_for_ohe.map
    (fun col => (col, dictGet data col (Json.str naoInformado))) with hcat
  refine ⟨insertAll (insertAll [] catRow) flags, ?_, ?_⟩
  · unfold buildInputData difficultyFlags
    rw [hflags]
  · intro col hcol hnoclash
    rw [insertAll_get_no_key flags _ col ?flagkeys]
    case flagkeys =>
      intro kv hkv
      obtain ⟨d, hd, hname⟩ := hkeys kv hkv
      rw [hname]
      exact hnoclash d hd
    apply insertAll_get_mem catRow [] col (dictGet data col (Json.str naoInformado))
    · rw [hcat]
      exact List.mem_map_of_mem _ hcol
    · intro kv hkv hfst
      rw [hcat] at hkv
      obtain ⟨c2, _, hkveq⟩ := List.mem_map.mp hkv
      rw [← hkveq] at hfst ⊢
      simp only at hfst ⊢
      rw [hfst]

/-- With a successfully assembled row, the handler returns a response for
every prediction outcome: nothing escapes the `try` block. -/
theorem recommend_not_crash_of_row_ok (st : AppState) (p : Pipeline)
    (data input_df : List (String × Json))
    (hp : st.pipeline = some p)
    (hdata : data ≠ [])
    (hrow : buildInputData st data = .ok input_df) :
    recommend st (some (Json.obj data)) ≠ .crash := by
  rcases hpred : p input_df with c | k | m
  · rw [recommend_ok st p data input_df c hp hdata hrow hpred]
    exact fun h => nomatch h
  · rw [recommend_keyError st p data input_df k hp hdata hrow hpred]
    exact fun h => nomatch h
  · rw [recommend_err st p data input_df m hp hdata hrow hpred]
    exact fun h => nomatch h

/-- A pipeline whose predict raises a KeyError for a feature column. -/
def keyErrorPipeline : Pipeline := fun _ => PredictResult.keyError "Escolaridade"

/-- C1 (amended): with the model loaded and a non-empty object body whose
difficulties value (if any) is a sequence, string or mapping, and with no
sanitized difficulty name colliding with the column, the Feature Row maps
every absent categorical column to the sentinel "Não informado" (the
spec's "Not informed") and every present one to the request's value, and
the handler returns a response rather than crashing. -/
theorem C1_categorical_default (st : AppState) (p : Pipeline)
    (data : List (String × Json)) (col : String)
    (hp : st.pipeline = some p)
    (hdata : data ≠ [])
    (hcol : col ∈ st.categorical_cols_for_ohe)
    (hnoclash : ∀ d ∈ st.all_difficulties, clean_difficulty_name d ≠ col)
    (hiter : diffValueIterable
      (dictGet data "Dificuldades_Divulgacao_Digital" (Json.arr [])) = true) :
    ∃ row, buildInputData st data = .ok row ∧
      (jsonObjGet data col = none → jsonObjGet row col = some (Json.str naoInformado)) ∧
      (∀ v, jsonObjGet data col = some v → jsonObjGet row col = some v) ∧
      recommend st (some (Json.obj data)) ≠ .crash := by
  obtain ⟨row, hrow, hlook⟩ := buildInputData_ok st data hiter
  refine ⟨row, hrow, ?_, ?_,
    recommend_not_crash_of_row_ok st p data row hp hdata hrow⟩
  · intro hnone
    rw [hlook col hcol hnoclash]
    unfold dictGet
    rw [hnone]
    rfl
  · intro v hv
    rw [hlook col hcol hnoclash]
    unfold dictGet
    rw [hv]
    rfl

/-- Witness for C1: a body missing the categorical column gets the
sentinel; the handler answers without crashing. -/
theorem C1_witness :
    ∃ row, buildInputData (demoStateDiff (constPipeline 0)) [("Nome", Json.str "Ana")] = .ok row ∧
      (jsonObjGet [("Nome", Json.str "Ana")] "Escolaridade" = none →
        jsonObjGet row "Escolaridade" = some (Json.str naoInformado)) ∧
      (∀ v, jsonObjGet [("Nome", Json.str "Ana")] "Escolaridade" = some v →
        jsonObjGet row "Escolaridade" = some v) ∧
      recommend (demoStateDiff (constPipeline 0)) (some (Json.obj [("Nome", Json.str "Ana")])) ≠
        HandlerResult.crash :=
  C1_categorical_default (demoStateDiff (constPipeline 0)) (constPipeline 0)
    [("Nome", Json.str "Ana")] "Escolaridade" rfl (List.cons_ne_nil _ _)
    (by decide) (by decide) rfl

/-- Counterexample to C1 as stated: the body is a non-empty object missing
the categorical column "Escolaridade", yet the handler does not survive —
the ill-typed difficulties value makes the membership test raise TypeError
before the row is finished, and the exception escapes the handler. -/
theorem C1_counterexample :
    "Escolaridade" ∈ (demoStateDiff (constPipeline 0)).categorical_cols_for_ohe ∧
    jsonObjGet [("Dificuldades_Divulgacao_Digital", Json.num 5)] "Escolaridade" = none ∧
    recommend (demoStateDiff (constPipeline 0))
      (some (Json.obj [("Dificuldades_Divulgacao_Digital", Json.num 5)])) =
      HandlerResult.crash :=
  ⟨by decide, rfl, rfl⟩

/-- A dict-valued difficulties field runs the loop without error: one flag
per vocabulary tag, set by membership among the dict's keys. -/
theorem difficultyFlagsFrom_obj (kvs : List (String × Json)) (alld : List String) :
    difficultyFlagsFrom (Json.obj kvs) alld =
      .ok (alld.map (fun d =>
        (clean_difficulty_name d,
          Json.num (if kvs.any (fun kv => kv.1 == d) then 1 else 0)))) := by
  induction alld with
  | nil => rfl
  | cons d rest ih => simp [difficultyFlagsFrom, pyContainsStr, ih]

theorem buildInputData_ok_of_flags (st : AppState) (data : List (String × Json))
    (flags : List (String × Json))
    (h : difficultyFlags st.all_difficulties
      (dictGet data "Dificuldades_Divulgacao_Digital" (Json.arr [])) = .ok flags) :
    buildInputData st data =
      .ok (insertAll (insertAll [] (st.categorical_cols_for_ohe.map
        (fun col => (col, dictGet data col (Json.str naoInformado))))) flags) := by
  unfold buildInputData
  rw [h]

/-- C3 (amended): a difficulties value that is neither a sequence nor a
string nor a mapping (number, boolean, null) is not treated as an empty
sequence: with a non-empty difficulty vocabulary the membership test
raises TypeError and the exception escapes the handler. A mapping value,
in contrast, is accepted: the flags are set by membership among its keys
and the handler does not crash. -/
theorem C3_noniterable_difficulties_crash (st : AppState) (p : Pipeline)
    (data : List (String × Json)) (d0 : String) (rest : List String)
    (hp : st.pipeline = some p)
    (hdata : data ≠ [])
    (halld : st.all_difficulties = d0 :: rest) :
    (diffValueIterable
        (dictGet data "Dificuldades_Divulgacao_Digital" (Json.arr [])) = false →
      recommend st (some (Json.obj data)) = .crash) ∧
    (∀ kvs, dictGet data "Dificuldades_Divulgacao_Digital" (Json.arr []) = Json.obj kvs →
      difficultyFlags st.all_difficulties (Json.obj kvs) =
        .ok (st.all_difficulties.map (fun d =>
          (clean_difficulty_name d,
            Json.num (if kvs.any (fun kv => kv.1 == d) then 1 else 0)))) ∧
      recommend st (some (Json.obj data)) ≠ .crash) := by
  constructor
  · intro hbad
    apply recommend_crash_of_row_error st p data hp hdata
    unfold buildInputData difficultyFlags
    rw [halld,
      difficultyFlagsFrom_error _ d0 rest (pyContainsStr_normalize_error _ hbad d0)]
  · intro kvs hkvs
    have hflags : difficultyFlags st.all_difficulties (Json.obj kvs) =
        .ok (st.all_difficulties.map (fun d =>
          (clean_difficulty_name d,
            Json.num (if kvs.any (fun kv => kv.1 == d) then 1 else 0)))) :=
      difficultyFlagsFrom_obj kvs st.all_difficulties
    refine ⟨hflags, ?_⟩
    have hrow := buildInputData_ok_of_flags st data _ (by rw [hkvs]; exact hflags)
    exact recommend_not_crash_of_row_ok st p data _ hp hdata hrow

/-- Witness for C3 (amended): a null difficulties value crashes the
handler, a dict-valued one is answered with its keys read as tags. -/
theorem C3_witness :
    recommend (demoStateDiff (constPipeline 0))
      (some (Json.obj [("Dificuldades_Divulgacao_Digital", Json.null)])) =
      HandlerResult.crash ∧
    recommend (demoStateDiff (constPipeline 0))
      (some (Json.obj [("Dificuldades_Divulgacao_Digital",
        Json.obj [("Falta de tempo", Json.num 1)])])) ≠
      HandlerResult.crash :=
  ⟨(C3_noniterable_difficulties_crash (demoStateDiff (constPipeline 0)) (constPipeline 0)
      [("Dificuldades_Divulgacao_Digital", Json.null)] "Falta de tempo" []
      rfl (List.cons_ne_nil _ _) rfl).1 rfl,
   ((C3_noniterable_difficulties_crash (demoStateDiff (constPipeline 0)) (constPipeline 0)
      [("Dificuldades_Divulgacao_Digital", Json.obj [("Falta de tempo", Json.num 1)])]
      "Falta de tempo" [] rfl (List.cons_ne_nil _ _) rfl).2
      [("Falta de tempo", Json.num 1)] rfl).2⟩

/-- Counterexample to C3 as stated: a boolean difficulties value is not
processed with all flags 0 — the handler dies with an unhandled TypeError. -/
theorem C3_counterexample :
    recommend (demoStateDiff (constPipeline 0))
      (some (Json.obj [("Dificuldades_Divulgacao_Digital", Json.bool true)])) =
      HandlerResult.crash := rfl

/-- C5 (amended): the try block around the predict call translates a
KeyError to 400 naming the offending key and any other exception to 500
surfacing its message; but row assembly runs outside the try block, so an
exception raised there escapes the handler unhandled. -/
theorem C5_try_covers_predict_only (st : AppState) (p : Pipeline)
    (data : List (String × Json))
    (hp : st.pipeline = some p)
    (hdata : data ≠ []) :
    (∀ input_df k, buildInputData st data = .ok input_df → p input_df = .keyError k →
      recommend st (some (Json.obj data)) = .resp 400 (errorBody (keyErrorMsg k))) ∧
    (∀ input_df m, buildInputData st data = .ok input_df → p input_df = .err m →
      recommend st (some (Json.obj data)) = .resp 500 (errorBody (internalErrorMsg m))) ∧
    (buildInputData st data = .error () →
      recommend st (some (Json.obj data)) = .crash) :=
  ⟨fun input_df k hrow hpred => recommend_keyError st p data input_df k hp hdata hrow hpred,
   fun input_df m hrow hpred => recommend_err st p data input_df m hp hdata hrow hpred,
   fun herr => recommend_crash_of_row_error st p data hp hdata herr⟩

/-- Witness for C5 (amended): a KeyError raised by predict becomes a 400
whose message names the key. -/
theorem C5_witness :
    recommend (demoStateDiff keyErrorPipeline) (some (Json.obj [("Nome", Json.str "Ana")])) =
      .resp 400 (errorBody (keyErrorMsg "Escolaridade")) :=
  (C5_try_covers_predict_only (demoStateDiff keyErrorPipeline) keyErrorPipeline
    [("Nome", Json.str "Ana")] rfl (List.cons_ne_nil _ _)).1
    [("Escolaridade", Json.str naoInformado), ("Dificuldade_Falta_de_tempo", Json.num 0)]
    "Escolaridade" rfl rfl

/-- Counterexample to C5 as stated: an exception raised during row
assembly (TypeError on a numeric difficulties value) is answered by
neither a 400 nor a 500 JSON body — it propagates out of the handler. -/
theorem C5_counterexample :
    recommend (demoStateDiff (constPipeline 0))
      (some (Json.obj [("Dificuldades_Divulgacao_Digital", Json.num 0)])) =
      HandlerResult.crash := rfl

/-! ## Splitting a comma-joined list recovers the list (claim C2) -/

/-- Joining segments with a comma and a space (the client-side encoding of
a list of tags into a single comma-separated string). -/
def joinCommaCore : List (List Char) → List Char
  | [] => []
  | [x] => x
  | x :: y :: rest => x ++ ',' :: ' ' :: joinCommaCore (y :: rest)

/-- String-level comma join. -/
def joinComma (l : List String) : String :=
  String.mk (joinCommaCore (l.map String.data))

theorem splitCommaCore_ne_nil (cs : List Char) : splitCommaCore cs ≠ [] := by
  induction cs with
  | nil => simp [splitCommaCore]
  | cons c cs ih =>
    simp only [splitCommaCore]
    split
    · simp
    · rcases h : splitCommaCore cs with _ | ⟨seg, rest⟩ <;> simp

theorem split_no_comma (xs : List Char) (h : ',' ∉ xs) : splitCommaCore xs = [xs] := by
  induction xs with
  | nil => rfl
  | cons c cs ih =>
    have hc : ¬(c = ',') := fun e => h (by rw [e]; exact List.mem_cons_self ',' cs)
    have hcs : ',' ∉ cs := fun m => h (List.mem_cons_of_mem c m)
    simp only [splitCommaCore, if_neg hc]
    rw [ih hcs]

theorem split_append_comma (xs ys : List Char) (h : ',' ∉ xs) :
    splitCommaCore (xs ++ ',' :: ys) = xs :: splitCommaCore ys := by
  induction xs with
  | nil => simp [splitCommaCore]
  | cons c cs ih =>
    have hc : ¬(c = ',') := fun e => h (by rw [e]; exact List.mem_cons_self ',' cs)
    have hcs : ',' ∉ cs := fun m => h (List.mem_cons_of_mem c m)
    simp only [List.cons_append, splitCommaCore, if_neg hc]
    rw [show cs.append (',' :: ys) = cs ++ ',' :: ys from rfl, ih hcs]

theorem stripCore_space_cons (cs : List Char) : stripCore (' ' :: cs) = stripCore cs := by
  simp [stripCore, List.dropWhile_cons, pyIsSpace]

/-- Splitting the comma-join of clean segments (non-empty, comma-free,
strip-invariant) recovers exactly the segments. -/
theorem parseCore_joinCore : ∀ L : List (List Char),
    (∀ seg ∈ L, seg ≠ [] ∧ ',' ∉ seg ∧ stripCore seg = seg) →
    parseCommaListCore (joinCommaCore L) = L := by
  intro L
  induction L with
  | nil => intro _; rfl
  | cons x rest ih =>
    intro h
    obtain ⟨hx_ne, hx_nc, hx_strip⟩ := h x (List.mem_cons_self x rest)
    cases rest with
    | nil =>
      show parseCommaListCore x = [x]
      unfold parseCommaListCore
      rw [split_no_comma x hx_nc]
      simp [hx_strip, hx_ne]
    | cons y rest2 =>
      have hrest := fun seg hseg => h seg (List.mem_cons_of_mem x hseg)
      have hJ := ih hrest
      have hjoin : joinCommaCore (x :: y :: rest2) =
          x ++ ',' :: ' ' :: joinCommaCore (y :: rest2) := rfl
      rw [hjoin]
      unfold parseCommaListCore
      rw [split_append_comma x _ hx_nc]
      rcases hsplit : splitCommaCore (joinCommaCore (y :: rest2)) with _ | ⟨seg, segs⟩
      · exact absurd hsplit (splitCommaCore_ne_nil _)
      · have hsp : splitCommaCore (' ' :: joinCommaCore (y :: rest2)) =
            (' ' :: seg) :: segs := by
          simp only [splitCommaCore, hsplit]
          rw [if_neg (by decide)]
        rw [hsp]
        unfold parseCommaListCore at hJ
        rw [hsplit] at hJ
        simp only [List.map_cons] at hJ ⊢
        rw [hx_strip, stripCore_space_cons]
        rw [List.filter_cons_of_pos (by simp [hx_ne]), hJ]

/-- String-level version: parsing the comma-join of clean tag strings
(non-empty, comma-free, strip-invariant) recovers exactly the tags. -/
theorem parseCommaList_joinComma (l : List String)
    (h : ∀ s ∈ l, s ≠ "" ∧ ',' ∉ s.data ∧ pyStrip s = s) :
    parseCommaList (joinComma l) = l := by
  unfold parseCommaList joinComma
  rw [show (String.mk (joinCommaCore (l.map String.data))).data =
      joinCommaCore (l.map String.data) from rfl]
  rw [parseCore_joinCore (l.map String.data) ?clean]
  case clean =>
    intro seg hseg
    obtain ⟨s, hs, hseq⟩ := List.mem_map.mp hseg
    obtain ⟨h1, h2, h3⟩ := h s hs
    subst hseq
    refine ⟨fun hnil => h1 (String.ext hnil), h2, ?_⟩
    have := congrArg String.data h3
    simpa [pyStrip] using this
  rw [List.map_map]
  have : (String.mk ∘ String.data) = id := funext (fun s => rfl)
  rw [this, List.map_id]

/-- C2 (amended): for a list of difficulty tags each of which is
non-empty, comma-free and has no surrounding whitespace, submitting the
difficulties field as the comma-separated join of the list produces
exactly the same binary flag entries in the Feature Row as submitting the
list itself. -/
theorem C2_comma_string_equals_list (alld : List String) (l : List String)
    (h : ∀ s ∈ l, s ≠ "" ∧ ',' ∉ s.data ∧ pyStrip s = s) :
    difficultyFlags alld (Json.str (joinComma l)) =
      difficultyFlags alld (Json.arr (l.map Json.str)) := by
  unfold difficultyFlags
  have hnorm : normalizeDifficulties (Json.str (joinComma l)) =
      Json.arr (l.map Json.str) := by
    show Json.arr ((parseCommaList (joinComma l)).map Json.str) = _
    rw [parseCommaList_joinComma l h]
  rw [hnorm]
  rfl

/-- Witness for C2 (amended): one clean tag submitted as a string or as a
one-element list sets the same flags over a two-tag vocabulary. -/
theorem C2_witness :
    difficultyFlags ["Falta de tempo", "Falta de recursos"]
      (Json.str (joinComma ["Falta de tempo"])) =
    difficultyFlags ["Falta de tempo", "Falta de recursos"]
      (Json.arr (["Falta de tempo"].map Json.str)) :=
  C2_comma_string_equals_list ["Falta de tempo", "Falta de recursos"]
    ["Falta de tempo"] (by decide)

/-- Counterexample to C2 as stated: for the tag list ["a,b"] (an element
containing a comma), the comma-joined string splits into "a" and "b", so
the flag for vocabulary entry "a" is 1, while the list form leaves it 0. -/
theorem C2_counterexample :
    difficultyFlags ["a"] (Json.str (joinComma ["a,b"])) ≠
      difficultyFlags ["a"] (Json.arr (["a,b"].map Json.str)) := by
  intro hcontra
  have h1 : difficultyFlags ["a"] (Json.str (joinComma ["a,b"])) =
      .ok [(clean_difficulty_name "a", Json.num 1)] := rfl
  have h2 : difficultyFlags ["a"] (Json.arr (["a,b"].map Json.str)) =
      .ok [(clean_difficulty_name "a", Json.num 0)] := rfl
  rw [h1, h2] at hcontra
  simp at hcontra
